import Mathlib

/-!
Verification development for the chart-backend query planner
(`src/database/charts.py`) and session-slot allocator
(`src/database/accounts.py`).

Queries are compiled into a pair of an SQL text and an ordered positional
parameter list; we embed the compilation functions faithfully, threading the
`(inner_select, conditions, params)` state through one step per optional
filter argument, in the order the Python code appends them.
-/

namespace ChartBackend

/-- A positional query parameter, as pushed onto the `params` list. -/
inductive PValue where
  | str (s : String)
  | int (n : Int)
  | bool (b : Bool)
  | strList (l : List String)
deriving DecidableEq, Repr

/-- Python truthiness of an `Optional[str]`: `None` and `""` are falsy. -/
def pyTruthyS : Option String → Bool
  | none => false
  | some s => s != ""

/-- Python truthiness of an `Optional[int]`: `None` and `0` are falsy. -/
def pyTruthyI : Option Int → Bool
  | none => false
  | some n => n != 0

/-- Python truthiness of an `Optional[List[str]]`: `None` and `[]` are falsy. -/
def pyTruthyL : Option (List String) → Bool
  | none => false
  | some l => !l.isEmpty

/-- Arguments of `get_chart_list` (defaults as in the Python signature). -/
structure FilterArgs where
  page : Int
  items_per_page : Int
  min_rating : Option Int := none
  max_rating : Option Int := none
  status : Option String := some "PUBLIC"
  tags : Option (List String) := none
  min_likes : Option Int := none
  max_likes : Option Int := none
  min_comments : Option Int := none
  max_comments : Option Int := none
  liked_by : Option String := none
  commented_by : Option String := none
  staff_pick : Option Bool := none
  title_includes : Option String := none
  description_includes : Option String := none
  artists_includes : Option String := none
  author_includes : Option String := none
  sonolus_handle_is : Option Int := none
  sort_by : String := "created_at"
  sort_order : String := "desc"
  sonolus_id : Option String := none
  meta_includes : Option String := none
  owned_by : Option String := none

/-- The mutable build state of `get_chart_list`: the inner SELECT text,
the `conditions` list, and the positional `params` list. -/
structure BuildSt where
  inner : String
  conds : List String
  params : List PValue
deriving Repr

/-- `params.append(v)` followed by `conditions.append(g(len(params)))`:
the placeholder index is the parameter list length after the push. -/
def addCond (g : Nat → String) (v : PValue) (st : BuildSt) : BuildSt :=
  { st with conds := st.conds ++ [g (st.params.length + 1)],
            params := st.params ++ [v] }

def statusFrag (n : Nat) : String := "c.status = $" ++ toString n ++ "::chart_status"

def staffFrag (n : Nat) : String := "c.staff_pick = $" ++ toString n ++ "::BOOL"

def minRatingFrag (n : Nat) : String := "c.rating > $" ++ toString n

def maxRatingFrag (n : Nat) : String := "c.rating < $" ++ toString n

def tagsFrag (n : Nat) : String := "c.tags @> $" ++ toString n ++ "::text[]"

def minLikesFrag (n : Nat) : String := "c.like_count >= $" ++ toString n

def maxLikesFrag (n : Nat) : String := "c.like_count <= $" ++ toString n

def minCommentsFrag (n : Nat) : String := "c.comment_count >= $" ++ toString n

def maxCommentsFrag (n : Nat) : String := "c.comment_count <= $" ++ toString n

def likedByFrag (n : Nat) : String := "clb.sonolus_id = $" ++ toString n

def ownFrag (n : Nat) : String := "c.author = $" ++ toString n

def handleFrag (n : Nat) : String := "a.sonolus_handle = $" ++ toString n

def titleFrag (n : Nat) : String := "LOWER(c.title) LIKE $" ++ toString n

def descFrag (n : Nat) : String := "LOWER(c.description) LIKE $" ++ toString n

def artistsFrag (n : Nat) : String := "LOWER(c.artists) LIKE $" ++ toString n

def authorFullFrag (n : Nat) : String :=
  "LOWER(c.chart_author || \x27#\x27 || a.sonolus_handle) LIKE $" ++ toString n

/-- The combined meta filter fragment: four LIKE sites joined by OR, all
referencing the same positional placeholder `$n`. -/
def metaFragment (n : Nat) : String :=
  "(LOWER(c.title) LIKE $" ++ toString n ++
  " OR LOWER(c.description) LIKE $" ++ toString n ++
  " OR LOWER(c.chart_author || \x27#\x27 || a.sonolus_handle) LIKE $" ++ toString n ++
  " OR LOWER(c.artists) LIKE $" ++ toString n ++ ")"

/-- Fixed column list of the inner SELECT (lines 83-111 of charts.py). -/
def innerSelectBase : String :=
  "\n        SELECT \n            c.id, \n            c.title, \n            c.artists, " ++
  "\n            c.description, \n            c.tags,\n            c.author," ++
  "\n            c.staff_pick,\n            c.jacket_file_hash, \n            c.music_file_hash, " ++
  "\n            c.chart_file_hash,\n            c.preview_file_hash, \n            c.background_file_hash," ++
  "\n            c.background_v3_file_hash,\n            c.background_v1_file_hash,\n            c.status," ++
  "\n            c.rating, \n            c.like_count,\n            c.comment_count," ++
  "\n            c.created_at,\n            c.published_at,\n            c.updated_at," ++
  "\n            c.log_like_score,\n            c.chart_author || \x27#\x27 || a.sonolus_handle AS author_full," ++
  "\n            a.sonolus_handle as author_handle,\n            c.chart_author AS chart_design," ++
  "\n            c.scheduled_publish\n    "

def likedCaseText : String :=
  ",\n            CASE WHEN cl.sonolus_id IS NULL THEN FALSE ELSE TRUE END AS liked\n        "

def fromJoinText : String :=
  "\n        FROM charts c\n        JOIN accounts a ON c.author = a.sonolus_id\n    "

/-- Initial state: inner SELECT columns, optional `liked` column, FROM/JOIN,
and the optional `chart_likes clb` join (lines 113-127). -/
def st0 (a : FilterArgs) : BuildSt :=
  let i1 := if pyTruthyS a.sonolus_id then innerSelectBase ++ likedCaseText else innerSelectBase
  let i2 := i1 ++ fromJoinText
  let i3 := if pyTruthyS a.liked_by then i2 ++ " JOIN chart_likes clb ON c.id = clb.chart_id" else i2
  { inner := i3, conds := [], params := [] }

/-- Lines 129-131: the viewer identity appends a parameter and a LEFT JOIN. -/
def stepSonolusId (v : Option String) (st : BuildSt) : BuildSt :=
  match v with
  | some s =>
    if s = "" then st
    else { st with params := st.params ++ [.str s],
                   inner := st.inner ++
                     " LEFT JOIN chart_likes cl ON c.id = cl.chart_id AND cl.sonolus_id = $" ++
                     toString (st.params.length + 1) }
  | none => st

/-- Lines 133-135: `if status:` (truthiness). -/
def stepStatus (v : Option String) (st : BuildSt) : BuildSt :=
  match v with
  | some s => if s = "" then st else addCond statusFrag (.str s) st
  | none => st

/-- Lines 137-139: `if staff_pick is not None:`. -/
def stepStaffPick (v : Option Bool) (st : BuildSt) : BuildSt :=
  match v with
  | some b => addCond staffFrag (.bool b) st
  | none => st

/-- Lines 141-144: `min_rating -= 1` then strict `>` comparison. -/
def stepMinRating (v : Option Int) (st : BuildSt) : BuildSt :=
  match v with
  | some m => addCond minRatingFrag (.int (m - 1)) st
  | none => st

/-- Lines 145-148: `max_rating += 1` then strict `<` comparison. -/
def stepMaxRating (v : Option Int) (st : BuildSt) : BuildSt :=
  match v with
  | some m => addCond maxRatingFrag (.int (m + 1)) st
  | none => st

/-- Lines 150-152: `if tags:` (truthiness). -/
def stepTags (v : Option (List String)) (st : BuildSt) : BuildSt :=
  match v with
  | some l => if l = [] then st else addCond tagsFrag (.strList l) st
  | none => st

def stepMinLikes (v : Option Int) (st : BuildSt) : BuildSt :=
  match v with
  | some m => addCond minLikesFrag (.int m) st
  | none => st

def stepMaxLikes (v : Option Int) (st : BuildSt) : BuildSt :=
  match v with
  | some m => addCond maxLikesFrag (.int m) st
  | none => st

def stepMinComments (v : Option Int) (st : BuildSt) : BuildSt :=
  match v with
  | some m => addCond minCommentsFrag (.int m) st
  | none => st

def stepMaxComments (v : Option Int) (st : BuildSt) : BuildSt :=
  match v with
  | some m => addCond maxCommentsFrag (.int m) st
  | none => st

/-- Lines 168-170: `if liked_by:`. -/
def stepLikedBy (v : Option String) (st : BuildSt) : BuildSt :=
  match v with
  | some s => if s = "" then st else addCond likedByFrag (.str s) st
  | none => st

/-- Lines 171-179: `if commented_by:` appends a parameter and a join, no condition. -/
def stepCommentedBy (v : Option String) (st : BuildSt) : BuildSt :=
  match v with
  | some s =>
    if s = "" then st
    else { st with params := st.params ++ [.str s],
                   inner := st.inner ++
                     "\n            JOIN (\n                SELECT DISTINCT chart_id" ++
                     "\n                FROM comments\n                WHERE commenter = $" ++
                     toString (st.params.length + 1) ++
                     "\n            ) cmt ON c.id = cmt.chart_id\n        " }
  | none => st

/-- The `elif sonolus_handle_is:` arm of lines 183-185. -/
def stepHandleOnly (v : Option Int) (st : BuildSt) : BuildSt :=
  match v with
  | some h => if h = 0 then st else addCond handleFrag (.int h) st
  | none => st

/-- Lines 180-185: `if owned_by: ... elif sonolus_handle_is: ...`. -/
def stepOwnedHandle (ob : Option String) (hi : Option Int) (st : BuildSt) : BuildSt :=
  match ob with
  | some s => if s = "" then stepHandleOnly hi st else addCond ownFrag (.str s) st
  | none => stepHandleOnly hi st

/-- ASCII lower-casing of Python `str.lower()`, written over the character
list so that it reduces in the kernel. -/
def strLower (s : String) : String := String.mk (s.data.map Char.toLower)

/-- Lower-case a substring filter and wrap it in SQL wildcard markers. -/
def wildcard (s : String) : String := "%" ++ strLower s ++ "%"

def stepTitleIncludes (v : Option String) (st : BuildSt) : BuildSt :=
  match v with
  | some s => if s = "" then st else addCond titleFrag (.str (wildcard s)) st
  | none => st

def stepDescriptionIncludes (v : Option String) (st : BuildSt) : BuildSt :=
  match v with
  | some s => if s = "" then st else addCond descFrag (.str (wildcard s)) st
  | none => st

def stepArtistsIncludes (v : Option String) (st : BuildSt) : BuildSt :=
  match v with
  | some s => if s = "" then st else addCond artistsFrag (.str (wildcard s)) st
  | none => st

def stepAuthorIncludes (v : Option String) (st : BuildSt) : BuildSt :=
  match v with
  | some s => if s = "" then st else addCond authorFullFrag (.str (wildcard s)) st
  | none => st

/-- Lines 201-209: one bound parameter, one fragment with four LIKE sites. -/
def stepMeta (v : Option String) (st : BuildSt) : BuildSt :=
  match v with
  | some s => if s = "" then st else addCond metaFragment (.str (wildcard s)) st
  | none => st

def b1 (a : FilterArgs) : BuildSt := stepSonolusId a.sonolus_id (st0 a)

def b2 (a : FilterArgs) : BuildSt := stepStatus a.status (b1 a)

def b3 (a : FilterArgs) : BuildSt := stepStaffPick a.staff_pick (b2 a)

def b4 (a : FilterArgs) : BuildSt := stepMinRating a.min_rating (b3 a)

def b5 (a : FilterArgs) : BuildSt := stepMaxRating a.max_rating (b4 a)

def b6 (a : FilterArgs) : BuildSt := stepTags a.tags (b5 a)

def b7 (a : FilterArgs) : BuildSt := stepMinLikes a.min_likes (b6 a)

def b8 (a : FilterArgs) : BuildSt := stepMaxLikes a.max_likes (b7 a)

def b9 (a : FilterArgs) : BuildSt := stepMinComments a.min_comments (b8 a)

def b10 (a : FilterArgs) : BuildSt := stepMaxComments a.max_comments (b9 a)

def b11 (a : FilterArgs) : BuildSt := stepLikedBy a.liked_by (b10 a)

def b12 (a : FilterArgs) : BuildSt := stepCommentedBy a.commented_by (b11 a)

def b13 (a : FilterArgs) : BuildSt := stepOwnedHandle a.owned_by a.sonolus_handle_is (b12 a)

def b14 (a : FilterArgs) : BuildSt := stepTitleIncludes a.title_includes (b13 a)

def b15 (a : FilterArgs) : BuildSt := stepDescriptionIncludes a.description_includes (b14 a)

def b16 (a : FilterArgs) : BuildSt := stepArtistsIncludes a.artists_includes (b15 a)

def b17 (a : FilterArgs) : BuildSt := stepAuthorIncludes a.author_includes (b16 a)

/-- The full predicate-compilation pass over all filter arguments, in source order. -/
def buildConds (a : FilterArgs) : BuildSt := stepMeta a.meta_includes (b17 a)

/-- Lines 211-212: append `WHERE` and the AND-joined conditions if any. -/
def innerFinal (a : FilterArgs) : String :=
  let st := buildConds a
  if st.conds = [] then st.inner
  else st.inner ++ " WHERE " ++ String.intercalate " AND " st.conds

def score_expr : String :=
  "(like_count * 3 + comment_count * 4 + (CASE WHEN staff_pick THEN 30 ELSE 0 END))"

def decaying_score_sql : String :=
  "(\n        (" ++ score_expr ++ ") \n        /\n        POWER((EXTRACT(EPOCH FROM " ++
  "(NOW() - COALESCE(published_at, created_at))) / 3600) + 2, 0.35)\n    )"

/-- Lines 227-236: the sort-column dictionary with default `created_at`. -/
def sortColumn (sort_by : String) : String :=
  if sort_by = "created_at" then "created_at"
  else if sort_by = "published_at" then "published_at"
  else if sort_by = "rating" then "rating"
  else if sort_by = "likes" then "like_count"
  else if sort_by = "comments" then "comment_count"
  else if sort_by = "decaying_likes" then decaying_score_sql
  else if sort_by = "abc" then "title"
  else if sort_by = "random" then "RANDOM()"
  else "created_at"

def sortOrderSql (sort_order : String) : String :=
  if strLower sort_order = "desc" then "DESC" else "ASC"

/-- Line 240-242: the not-null publish-time fragment, added only when the
sort column is `published_at`. -/
def filterPublishedAtNull (sc : String) : String :=
  if sc = "published_at" then "AND published_at IS NOT NULL" else ""

/-- Lines 244-253: the page query text. `np` is the number of filter
parameters; LIMIT and OFFSET take positions `np+1` and `np+2`. -/
def pageQueryText (inner sc so fpn : String) (np : Nat) : String :=
  "\n        WITH chart_data AS (\n            " ++ inner ++ "\n        )" ++
  "\n        SELECT *\n        FROM chart_data\n        WHERE 1=1 " ++ fpn ++
  "\n        ORDER BY " ++ sc ++ " " ++ so ++
  "\n        LIMIT $" ++ toString (np + 1) ++ " OFFSET $" ++ toString (np + 2) ++ "\n    "

/-- Lines 255-260: the count query text, over the same `chart_data` CTE. -/
def countQueryText (inner : String) : String :=
  "\n        WITH chart_data AS (\n            " ++ inner ++ "\n        )" ++
  "\n        SELECT COUNT(*) AS total_count FROM chart_data\n    "

/-- `get_chart_list` (lines 47-273): returns the count query and the page
query, each as SQL text with its positional parameter tuple. -/
def get_chart_list (a : FilterArgs) : (String × List PValue) × (String × List PValue) :=
  let st := buildConds a
  let inner := innerFinal a
  let sc := sortColumn a.sort_by
  ((countQueryText inner, st.params),
   (pageQueryText inner sc (sortOrderSql a.sort_order) (filterPublishedAtNull sc) st.params.length,
    st.params ++ [.int a.items_per_page, .int (a.page * a.items_per_page)]))

/-- SQL row semantics of the page query's outer `WHERE 1=1 {fpn}` clause for
the two fragments the planner can produce: the empty fragment keeps every
row, the not-null fragment keeps exactly the rows whose `published_at` is
not NULL (rows are abstracted to their optional publish timestamp). -/
def outerWhereKeeps (fpn : String) (published_at : Option Int) : Bool :=
  if fpn = "" then true else published_at.isSome

/-- Arguments of `update_metadata` (charts.py lines 437-446).  The Python
`rating` accepts int/float/Decimal; only its presence and Python truthiness
matter to the claims, so it is carried as an integer parameter value. -/
structure MetaArgs where
  chart_id : String
  chart_author : Option String := none
  rating : Option Int := none
  description : Option String := none
  title : Option String := none
  artists : Option String := none
  tags : Option (List String) := none
  update_none_description : Bool := false

/-- `add_field`: push the value, then append `field = $len(args)`. -/
def addSetField (fname : String) (v : PValue) (s : List String × List PValue) :
    List String × List PValue :=
  (s.1 ++ [fname ++ " = $" ++ toString (s.2.length + 1)], s.2 ++ [v])

def metaField (fname : String) (v : Option Int) (s : List String × List PValue) :
    List String × List PValue :=
  match v with
  | some n => addSetField fname (.int n) s
  | none => s

def metaFieldS (fname : String) (v : Option String) (s : List String × List PValue) :
    List String × List PValue :=
  match v with
  | some str => addSetField fname (.str str) s
  | none => s

def metaFieldL (fname : String) (v : Option (List String)) (s : List String × List PValue) :
    List String × List PValue :=
  match v with
  | some l => addSetField fname (.strList l) s
  | none => s

/-- `description is not None` sets the value; otherwise
`update_none_description` appends a literal `description = NULL`. -/
def metaFieldDescription (v : Option String) (setNull : Bool)
    (s : List String × List PValue) : List String × List PValue :=
  match v with
  | some str => addSetField "description" (.str str) s
  | none => if setNull then (s.1 ++ ["description = NULL"], s.2) else s

/-- Assemble the final UPDATE statement of `update_metadata` /
`update_file_hash`: append `updated_at`, join the SET list, append the
`chart_id` as the last parameter (lines 485-496 and 546-560). -/
def updateChartsTail (chart_id : String) (kind : Bool)
    (s : List String × List PValue) : Except String (String × List PValue) :=
  let fs := s.1 ++ ["updated_at = CURRENT_TIMESTAMP"]
  if kind && fs.isEmpty then .error "At least one file hash must be updated."
  else
    let args := s.2 ++ [.str chart_id]
    .ok ("\n        UPDATE charts\n        SET " ++ String.intercalate ", " fs ++
         "\n        WHERE id = $" ++ toString args.length ++ ";\n    ", args)

/-- `update_metadata` (charts.py lines 437-496). -/
def update_metadata (a : MetaArgs) : Except String (String × List PValue) :=
  if !(pyTruthyI a.rating || pyTruthyS a.description || pyTruthyS a.title ||
       pyTruthyS a.artists || pyTruthyL a.tags || pyTruthyS a.chart_author ||
       a.update_none_description) then
    .error "At least one field must be updated."
  else
    let s : List String × List PValue := ([], [])
    let s := metaField "rating" a.rating s
    let s := metaFieldS "chart_author" a.chart_author s
    let s := metaFieldDescription a.description a.update_none_description s
    let s := metaFieldS "title" a.title s
    let s := metaFieldS "artists" a.artists s
    let s := metaFieldL "tags" a.tags s
    updateChartsTail a.chart_id false s

/-- Arguments of `update_file_hash` (charts.py lines 499-511). -/
structure FileHashArgs where
  chart_id : String
  jacket_hash : Option String := none
  v1_hash : Option String := none
  v3_hash : Option String := none
  music_hash : Option String := none
  chart_hash : Option String := none
  preview_hash : Option String := none
  background_hash : Option String := none
  confirm_change : Bool := false
  update_none_preview : Bool := false
  update_none_background : Bool := false

/-- A `hash is not None` SET field; with a NULL fallback flag for the
preview/background fields (lines 537-544). -/
def hashFieldOrNull (fname : String) (v : Option String) (setNull : Bool)
    (s : List String × List PValue) : List String × List PValue :=
  match v with
  | some h => addSetField fname (.str h) s
  | none => if setNull then (s.1 ++ [fname ++ " = NULL"], s.2) else s

/-- `update_file_hash` (charts.py lines 499-560).  Note that the
`At least one file hash must be updated` check sits after the unconditional
append of `updated_at`, exactly as in the source. -/
def update_file_hash (a : FileHashArgs) : Except String (String × List PValue) :=
  if !a.confirm_change then
    .error "File hash change is not confirmed. Ensure you are deleting the old files from S3 to avoid dangling files."
  else if pyTruthyS a.jacket_hash && !(pyTruthyS a.v1_hash && pyTruthyS a.v3_hash) then
    .error "Must regenerate v1/v3 on jacket change"
  else
    let s : List String × List PValue := ([], [])
    let s := metaFieldS "jacket_file_hash" a.jacket_hash s
    let s := metaFieldS "background_v1_file_hash" a.v1_hash s
    let s := metaFieldS "background_v3_file_hash" a.v3_hash s
    let s := metaFieldS "music_file_hash" a.music_hash s
    let s := metaFieldS "chart_file_hash" a.chart_hash s
    let s := hashFieldOrNull "preview_file_hash" a.preview_hash a.update_none_preview s
    let s := hashFieldOrNull "background_file_hash" a.background_hash a.update_none_background s
    updateChartsTail a.chart_id true s

def deleteChartNoOwnerSql : String :=
  "\n                DELETE FROM charts\n                USING accounts a" ++
  "\n                WHERE charts.id = $1\n                AND charts.author = a.sonolus_id" ++
  "\n                RETURNING\n                    charts.*," ++
  "\n                    charts.chart_author AS chart_design," ++
  "\n                    a.sonolus_handle AS author_handle;\n            "

def deleteChartOwnerSql : String :=
  "\n                DELETE FROM charts\n                USING accounts a" ++
  "\n                WHERE charts.id = $1\n                AND charts.author = $2" ++
  "\n                AND charts.author = a.sonolus_id" ++
  "\n                RETURNING\n                    charts.*," ++
  "\n                    charts.chart_author AS chart_design," ++
  "\n                    a.sonolus_handle AS author_handle;\n            "

/-- `delete_chart` (charts.py lines 396-434). -/
def delete_chart (chart_id : String) (sonolus_id : Option String)
    (confirm_change : Bool) : Except String (String × List PValue) :=
  if !confirm_change then
    .error "Deletion not confirmed. Ensure you are deleting the old files from S3 to ensure there is no hanging files."
  else if !(pyTruthyS sonolus_id) then
    .ok (deleteChartNoOwnerSql, [.str chart_id])
  else
    .ok (deleteChartOwnerSql, [.str chart_id, .str (sonolus_id.getD "")])

/-- `delete_account` (accounts.py lines 281-293). -/
def delete_account (sonolus_id : String) (confirm_change : Bool) :
    Except String (String × List PValue) :=
  if !confirm_change then
    .error "Deletion not confirmed. Ensure you are deleting the old chart files from S3 to ensure there is no hanging files."
  else
    .ok ("\n            DELETE FROM accounts\n            WHERE sonolus_id = $1;\n        ",
         [.str sonolus_id])

/-- One session slot: the stored `session_key` and `expires` epoch millis. -/
structure Slot where
  session_key : String
  expires : Int
deriving DecidableEq, Repr

/-- The three session slots of one `(account, sessionType)` pair, keyed
`"1"`, `"2"`, `"3"` in the `sonolus_sessions` JSONB object. -/
structure Sessions3 where
  s1 : Option Slot
  s2 : Option Slot
  s3 : Option Slot
deriving DecidableEq, Repr

/-- `jsonb_extract_path(sonolus_sessions, $2, k)` for `k` in `"1".."3"`. -/
def slotGet (s : Sessions3) (k : String) : Option Slot :=
  if k = "1" then s.s1 else if k = "2" then s.s2 else if k = "3" then s.s3 else none

/-- A CASE-branch test of accounts.py lines 150-157: the slot is absent, or
its `expires` is strictly below the current epoch millis. -/
def expiredOrEmpty (o : Option Slot) (now : Int) : Bool :=
  match o with
  | none => true
  | some sl => decide (sl.expires < now)

/-- The slot chosen by the `slot_to_use` CASE expression of
`create_account_if_not_exists_and_new_session` (accounts.py lines 147-168).
The first three branches are deterministic; the ELSE branch is
`ORDER BY (val->>'expires')::bigint ASC LIMIT 1` over `jsonb_each`, which
fixes only that the chosen slot has a minimal `expires` — SQL specifies no
tie-break between equal expiry values, so the branch is modelled as a
relation admitting every minimal slot. -/
inductive selectsSlot (s : Sessions3) (now : Int) : String → Prop where
  | first : expiredOrEmpty s.s1 now = true → selectsSlot s now "1"
  | second : expiredOrEmpty s.s1 now = false → expiredOrEmpty s.s2 now = true →
      selectsSlot s now "2"
  | third : expiredOrEmpty s.s1 now = false → expiredOrEmpty s.s2 now = false →
      expiredOrEmpty s.s3 now = true → selectsSlot s now "3"
  | evict (k : String) (sl : Slot) : expiredOrEmpty s.s1 now = false →
      expiredOrEmpty s.s2 now = false → expiredOrEmpty s.s3 now = false →
      slotGet s k = some sl →
      (∀ k' sl', slotGet s k' = some sl' → sl.expires ≤ sl'.expires) →
      selectsSlot s now k

/-- `jsonb_set(sonolus_sessions, array[$2, slot], jsonb_build_object(...), true)`:
overwrite the selected slot with the new key and expiry. -/
def setSlot (s : Sessions3) (k : String) (v : Slot) : Sessions3 :=
  if k = "1" then { s with s1 := some v }
  else if k = "2" then { s with s2 := some v }
  else if k = "3" then { s with s3 := some v }
  else s

/-- The RETURNING clause (accounts.py lines 181-183): read `session_key` and
`expires` back out of the written slot of the updated session object. -/
def sessionResult (s : Sessions3) (k : String) : Option (String × Int) :=
  (slotGet s k).map fun sl => (sl.session_key, sl.expires)

/-- The decaying popularity score of the `decaying_likes` ranking
(charts.py lines 214-225), as a real-valued function of the stored
counters and the item age in hours:
`(like_count*3 + comment_count*4 + (CASE WHEN staff_pick THEN 30 ELSE 0 END))
 / POWER(ageHours + 2, 0.35)`. -/
noncomputable def decayingScore (like_count comment_count : ℕ) (staff_pick : Bool)
    (ageHours : ℝ) : ℝ :=
  ((like_count : ℝ) * 3 + (comment_count : ℝ) * 4 + (if staff_pick then (30 : ℝ) else 0)) /
    (ageHours + 2) ^ (0.35 : ℝ)

/-- Concrete filter arguments used by the claim witnesses. -/
def argsRating : FilterArgs :=
  { page := 0, items_per_page := 10, min_rating := some 5, max_rating := some 9 }

def argsMeta : FilterArgs :=
  { page := 0, items_per_page := 10, meta_includes := some "Foo" }

def argsOwned : FilterArgs :=
  { page := 2, items_per_page := 20, owned_by := some "alice", sonolus_handle_is := some 7 }

def argsPubSort : FilterArgs :=
  { page := 0, items_per_page := 10, sort_by := "published_at" }

/-- All three slots active at time 50, with a tie on the minimal expiry. -/
def sessionsTie : Sessions3 :=
  { s1 := some { session_key := "ka", expires := 100 },
    s2 := some { session_key := "kb", expires := 100 },
    s3 := some { session_key := "kc", expires := 300 } }

/-- Slots `[active, expired, empty]` at time 50 (the spec's scan example). -/
def sessionsScan : Sessions3 :=
  { s1 := some { session_key := "ka", expires := 100 },
    s2 := some { session_key := "kb", expires := 10 },
    s3 := none }

/-- One build state extends another: the later state's condition and
parameter lists are obtained from the earlier ones purely by appending. -/
def StExt (s t : BuildSt) : Prop :=
  ∃ cs ps, t.conds = s.conds ++ cs ∧ t.params = s.params ++ ps

/-- No compiled condition fragment starts with the character `a` (the
handle predicate `a.sonolus_handle = $n` is the only fragment that does). -/
def NoHandleConds (st : BuildSt) : Prop :=
  ∀ f ∈ st.conds, f.data.head? ≠ some 'a'

/-- `st0` with the two fields it reads passed explicitly. -/
def st0Aux (sid lb : Option String) : BuildSt :=
  let i1 := if pyTruthyS sid then innerSelectBase ++ likedCaseText else innerSelectBase
  let i2 := i1 ++ fromJoinText
  let i3 := if pyTruthyS lb then i2 ++ " JOIN chart_likes clb ON c.id = clb.chart_id" else i2
  { inner := i3, conds := [], params := [] }

/-- The predicate-compilation pipeline of `buildConds` with every filter
argument passed explicitly (definitionally equal to `buildConds`). -/
def buildCondsAux (sid lb status : Option String) (sp : Option Bool)
    (mr xr : Option Int) (tg : Option (List String)) (ml xl mc xc : Option Int)
    (cb ob : Option String) (hi : Option Int) (ti di ar au mi : Option String) : BuildSt :=
  stepMeta mi (stepAuthorIncludes au (stepArtistsIncludes ar (stepDescriptionIncludes di
    (stepTitleIncludes ti (stepOwnedHandle ob hi (stepCommentedBy cb (stepLikedBy lb
      (stepMaxComments xc (stepMinComments mc (stepMaxLikes xl (stepMinLikes ml
        (stepTags tg (stepMaxRating xr (stepMinRating mr (stepStaffPick sp
          (stepStatus status (stepSonolusId sid (st0Aux sid lb))))))))))))))))))

theorem buildConds_eq_aux (a : FilterArgs) :
    buildConds a = buildCondsAux a.sonolus_id a.liked_by a.status a.staff_pick
      a.min_rating a.max_rating a.tags a.min_likes a.max_likes a.min_comments
      a.max_comments a.commented_by a.owned_by a.sonolus_handle_is
      a.title_includes a.description_includes a.artists_includes
      a.author_includes a.meta_includes := rfl

theorem get?_append_of_some {α : Type} {xs : List α} (ys : List α) {k : ℕ} {v : α}
    (h : xs.get? k = some v) : (xs ++ ys).get? k = some v := by
  induction xs generalizing k with
  | nil => simp at h
  | cons x xs ih =>
    cases k with
    | zero => simpa using h
    | succ k => simpa using ih (by simpa using h)

theorem get?_append_singleton {α : Type} (xs : List α) (v : α) :
    (xs ++ [v]).get? xs.length = some v := by
  induction xs with
  | nil => rfl
  | cons x xs ih => simp [ih]

theorem StExt_rfl (s : BuildSt) : StExt s s := ⟨[], [], by simp, by simp⟩

theorem StExt_trans {s t u : BuildSt} (h1 : StExt s t) (h2 : StExt t u) : StExt s u := by
  obtain ⟨cs1, ps1, hc1, hp1⟩ := h1
  obtain ⟨cs2, ps2, hc2, hp2⟩ := h2
  exact ⟨cs1 ++ cs2, ps1 ++ ps2, by rw [hc2, hc1, List.append_assoc],
    by rw [hp2, hp1, List.append_assoc]⟩

theorem StExt.mem_conds {s t : BuildSt} (h : StExt s t) {f : String}
    (hf : f ∈ s.conds) : f ∈ t.conds := by
  obtain ⟨cs, ps, hc, hp⟩ := h
  rw [hc]
  exact List.mem_append_left _ hf

theorem StExt.param_stable {s t : BuildSt} (h : StExt s t) {k : ℕ} {v : PValue}
    (hv : s.params.get? k = some v) : t.params.get? k = some v := by
  obtain ⟨cs, ps, hc, hp⟩ := h
  rw [hp]
  exact get?_append_of_some _ hv

theorem StExt_addCond (g : Nat → String) (v : PValue) (st : BuildSt) :
    StExt st (addCond g v st) := ⟨[g (st.params.length + 1)], [v], rfl, rfl⟩

theorem stExt_stepSonolusId (v : Option String) (st : BuildSt) :
    StExt st (stepSonolusId v st) := by
  cases v with
  | none => exact StExt_rfl st
  | some s =>
    by_cases h : s = ""
    · simp only [stepSonolusId, if_pos h]
      exact StExt_rfl st
    · simp only [stepSonolusId, if_neg h]
      exact ⟨[], [.str s], by simp, rfl⟩

theorem stExt_stepStatus (v : Option String) (st : BuildSt) :
    StExt st (stepStatus v st) := by
  cases v with
  | none => exact StExt_rfl st
  | some s =>
    by_cases h : s = ""
    · simp only [stepStatus, if_pos h]
      exact StExt_rfl st
    · simp only [stepStatus, if_neg h]
      exact StExt_addCond _ _ st

theorem stExt_stepStaffPick (v : Option Bool) (st : BuildSt) :
    StExt st (stepStaffPick v st) := by
  cases v with
  | none => exact StExt_rfl st
  | some b => exact StExt_addCond _ _ st

theorem stExt_stepMinRating (v : Option Int) (st : BuildSt) :
    StExt st (stepMinRating v st) := by
  cases v with
  | none => exact StExt_rfl st
  | some m => exact StExt_addCond _ _ st

theorem stExt_stepMaxRating (v : Option Int) (st : BuildSt) :
    StExt st (stepMaxRating v st) := by
  cases v with
  | none => exact StExt_rfl st
  | some m => exact StExt_addCond _ _ st

theorem stExt_stepTags (v : Option (List String)) (st : BuildSt) :
    StExt st (stepTags v st) := by
  cases v with
  | none => exact StExt_rfl st
  | some l =>
    by_cases h : l = []
    · simp only [stepTags, if_pos h]
      exact StExt_rfl st
    · simp only [stepTags, if_neg h]
      exact StExt_addCond _ _ st

theorem stExt_stepMinLikes (v : Option Int) (st : BuildSt) :
    StExt st (stepMinLikes v st) := by
  cases v with
  | none => exact StExt_rfl st
  | some m => exact StExt_addCond _ _ st

theorem stExt_stepMaxLikes (v : Option Int) (st : BuildSt) :
    StExt st (stepMaxLikes v st) := by
  cases v with
  | none => exact StExt_rfl st
  | some m => exact StExt_addCond _ _ st

theorem stExt_stepMinComments (v : Option Int) (st : BuildSt) :
    StExt st (stepMinComments v st) := by
  cases v with
  | none => exact StExt_rfl st
  | some m => exact StExt_addCond _ _ st

theorem stExt_stepMaxComments (v : Option Int) (st : BuildSt) :
    StExt st (stepMaxComments v st) := by
  cases v with
  | none => exact StExt_rfl st
  | some m => exact StExt_addCond _ _ st

theorem stExt_stepLikedBy (v : Option String) (st : BuildSt) :
    StExt st (stepLikedBy v st) := by
  cases v with
  | none => exact StExt_rfl st
  | some s =>
    by_cases h : s = ""
    · simp only [stepLikedBy, if_pos h]
      exact StExt_rfl st
    · simp only [stepLikedBy, if_neg h]
      exact StExt_addCond _ _ st

theorem stExt_stepCommentedBy (v : Option String) (st : BuildSt) :
    StExt st (stepCommentedBy v st) := by
  cases v with
  | none => exact StExt_rfl st
  | some s =>
    by_cases h : s = ""
    · simp only [stepCommentedBy, if_pos h]
      exact StExt_rfl st
    · simp only [stepCommentedBy, if_neg h]
      exact ⟨[], [.str s], by simp, rfl⟩

theorem stExt_stepHandleOnly (v : Option Int) (st : BuildSt) :
    StExt st (stepHandleOnly v st) := by
  cases v with
  | none => exact StExt_rfl st
  | some n =>
    by_cases h : n = 0
    · simp only [stepHandleOnly, if_pos h]
      exact StExt_rfl st
    · simp only [stepHandleOnly, if_neg h]
      exact StExt_addCond _ _ st

theorem stExt_stepOwnedHandle (ob : Option String) (hi : Option Int) (st : BuildSt) :
    StExt st (stepOwnedHandle ob hi st) := by
  cases ob with
  | none => exact stExt_stepHandleOnly hi st
  | some s =>
    by_cases h : s = ""
    · simp only [stepOwnedHandle, if_pos h]
      exact stExt_stepHandleOnly hi st
    · simp only [stepOwnedHandle, if_neg h]
      exact StExt_addCond _ _ st

theorem stExt_stepTitleIncludes (v : Option String) (st : BuildSt) :
    StExt st (stepTitleIncludes v st) := by
  cases v with
  | none => exact StExt_rfl st
  | some s =>
    by_cases h : s = ""
    · simp only [stepTitleIncludes, if_pos h]
      exact StExt_rfl st
    · simp only [stepTitleIncludes, if_neg h]
      exact StExt_addCond _ _ st

theorem stExt_stepDescriptionIncludes (v : Option String) (st : BuildSt) :
    StExt st (stepDescriptionIncludes v st) := by
  cases v with
  | none => exact StExt_rfl st
  | some s =>
    by_cases h : s = ""
    · simp only [stepDescriptionIncludes, if_pos h]
      exact StExt_rfl st
    · simp only [stepDescriptionIncludes, if_neg h]
      exact StExt_addCond _ _ st

theorem stExt_stepArtistsIncludes (v : Option String) (st : BuildSt) :
    StExt st (stepArtistsIncludes v st) := by
  cases v with
  | none => exact StExt_rfl st
  | some s =>
    by_cases h : s = ""
    · simp only [stepArtistsIncludes, if_pos h]
      exact StExt_rfl st
    · simp only [stepArtistsIncludes, if_neg h]
      exact StExt_addCond _ _ st

theorem stExt_stepAuthorIncludes (v : Option String) (st : BuildSt) :
    StExt st (stepAuthorIncludes v st) := by
  cases v with
  | none => exact StExt_rfl st
  | some s =>
    by_cases h : s = ""
    · simp only [stepAuthorIncludes, if_pos h]
      exact StExt_rfl st
    · simp only [stepAuthorIncludes, if_neg h]
      exact StExt_addCond _ _ st

theorem stExt_stepMeta (v : Option String) (st : BuildSt) :
    StExt st (stepMeta v st) := by
  cases v with
  | none => exact StExt_rfl st
  | some s =>
    by_cases h : s = ""
    · simp only [stepMeta, if_pos h]
      exact StExt_rfl st
    · simp only [stepMeta, if_neg h]
      exact StExt_addCond _ _ st

theorem stExt_b17_build (a : FilterArgs) : StExt (b17 a) (buildConds a) :=
  stExt_stepMeta a.meta_includes (b17 a)

theorem stExt_b16_build (a : FilterArgs) : StExt (b16 a) (buildConds a) :=
  StExt_trans (stExt_stepAuthorIncludes a.author_includes (b16 a)) (stExt_b17_build a)

theorem stExt_b15_build (a : FilterArgs) : StExt (b15 a) (buildConds a) :=
  StExt_trans (stExt_stepArtistsIncludes a.artists_includes (b15 a)) (stExt_b16_build a)

theorem stExt_b14_build (a : FilterArgs) : StExt (b14 a) (buildConds a) :=
  StExt_trans (stExt_stepDescriptionIncludes a.description_includes (b14 a)) (stExt_b15_build a)

theorem stExt_b13_build (a : FilterArgs) : StExt (b13 a) (buildConds a) :=
  StExt_trans (stExt_stepTitleIncludes a.title_includes (b13 a)) (stExt_b14_build a)

theorem stExt_b12_build (a : FilterArgs) : StExt (b12 a) (buildConds a) :=
  StExt_trans (stExt_stepOwnedHandle a.owned_by a.sonolus_handle_is (b12 a)) (stExt_b13_build a)

theorem stExt_b11_build (a : FilterArgs) : StExt (b11 a) (buildConds a) :=
  StExt_trans (stExt_stepCommentedBy a.commented_by (b11 a)) (stExt_b12_build a)

theorem stExt_b10_build (a : FilterArgs) : StExt (b10 a) (buildConds a) :=
  StExt_trans (stExt_stepLikedBy a.liked_by (b10 a)) (stExt_b11_build a)

theorem stExt_b9_build (a : FilterArgs) : StExt (b9 a) (buildConds a) :=
  StExt_trans (stExt_stepMaxComments a.max_comments (b9 a)) (stExt_b10_build a)

theorem stExt_b8_build (a : FilterArgs) : StExt (b8 a) (buildConds a) :=
  StExt_trans (stExt_stepMinComments a.min_comments (b8 a)) (stExt_b9_build a)

theorem stExt_b7_build (a : FilterArgs) : StExt (b7 a) (buildConds a) :=
  StExt_trans (stExt_stepMaxLikes a.max_likes (b7 a)) (stExt_b8_build a)

theorem stExt_b6_build (a : FilterArgs) : StExt (b6 a) (buildConds a) :=
  StExt_trans (stExt_stepMinLikes a.min_likes (b6 a)) (stExt_b7_build a)

theorem stExt_b5_build (a : FilterArgs) : StExt (b5 a) (buildConds a) :=
  StExt_trans (stExt_stepTags a.tags (b5 a)) (stExt_b6_build a)

theorem stExt_b4_build (a : FilterArgs) : StExt (b4 a) (buildConds a) :=
  StExt_trans (stExt_stepMaxRating a.max_rating (b4 a)) (stExt_b5_build a)

/-- C1: for every combination of filter arguments, the count query and the
page query of `get_chart_list` are assembled around one shared inner SELECT
text (`innerFinal a`, which carries the compiled predicate fragments), the
count query's parameter tuple is a prefix of the page query's, and the page
query appends exactly the two pagination parameters `items_per_page` and
`page * items_per_page`. -/
theorem count_page_share_inner_and_params (a : FilterArgs) :
    (get_chart_list a).1.1 = countQueryText (innerFinal a) ∧
    (get_chart_list a).2.1 =
      pageQueryText (innerFinal a) (sortColumn a.sort_by) (sortOrderSql a.sort_order)
        (filterPublishedAtNull (sortColumn a.sort_by)) (get_chart_list a).1.2.length ∧
    (get_chart_list a).2.2 =
      (get_chart_list a).1.2 ++ [.int a.items_per_page, .int (a.page * a.items_per_page)] ∧
    (get_chart_list a).1.2 <+: (get_chart_list a).2.2 :=
  ⟨rfl, rfl, rfl, List.prefix_append _ _⟩

set_option maxRecDepth 100000 in
/-- C2: when the ranking strategy is `published_at`, the page query's outer
WHERE clause carries the implicit `AND published_at IS NOT NULL` predicate
but the count query is assembled with no outer predicate at all, so a row
with a NULL publish time is counted yet can never appear on any page. -/
theorem published_at_filter_only_in_page_query :
    (get_chart_list argsPubSort).2.1 =
      pageQueryText (innerFinal argsPubSort) "published_at" "DESC"
        "AND published_at IS NOT NULL" 1 ∧
    (get_chart_list argsPubSort).1.1 = countQueryText (innerFinal argsPubSort) ∧
    outerWhereKeeps "AND published_at IS NOT NULL" none = false ∧
    outerWhereKeeps "" none = true :=
  ⟨rfl, rfl, rfl, rfl⟩

/-- C9: the decaying popularity score is the weighted engagement sum
`likes*3 + comments*4 + (staffPick ? 30 : 0)` divided by `(ageHours+2)^0.35`,
and for a fixed positive weighted sum it is strictly decreasing in the age. -/
theorem decayingScore_formula_and_strict_decrease (l c : ℕ) (sp : Bool) (a b : ℝ)
    (hraw : 0 < (l : ℝ) * 3 + (c : ℝ) * 4 + (if sp then (30 : ℝ) else 0))
    (ha : 0 ≤ a) (hab : a < b) :
    decayingScore l c sp a =
      ((l : ℝ) * 3 + (c : ℝ) * 4 + (if sp then (30 : ℝ) else 0)) / (a + 2) ^ (0.35 : ℝ) ∧
    decayingScore l c sp b < decayingScore l c sp a := by
  constructor
  · rfl
  · unfold decayingScore
    apply div_lt_div_of_pos_left hraw
    · exact Real.rpow_pos_of_pos (by linarith) _
    · exact Real.rpow_lt_rpow (by linarith) (by linarith) (by norm_num)

/-- Witness for C9: at the spec's example, raw = 2*3 + 1*4 = 10 and the
score at age 0 hours strictly exceeds the score at age 100 hours. -/
theorem decayingScore_witness :
    decayingScore 2 1 false 100 < decayingScore 2 1 false 0 :=
  (decayingScore_formula_and_strict_decrease 2 1 false 0 100 (by norm_num)
    (by norm_num) (by norm_num)).2

theorem updateChartsTail_isOk (cid : String) (kind : Bool)
    (s : List String × List PValue) : (updateChartsTail cid kind s).isOk = true := by
  unfold updateChartsTail
  have he : (s.1 ++ ["updated_at = CURRENT_TIMESTAMP"]).isEmpty = false := by
    cases hs : s.1 ++ ["updated_at = CURRENT_TIMESTAMP"] with
    | nil => exact absurd hs (by simp)
    | cons x xs => rfl
  simp only [he, Bool.and_false, Bool.false_eq_true, if_false, Except.isOk, Except.toBool]

theorem updateChartsTail_ne_error (cid : String) (kind : Bool)
    (s : List String × List PValue) (msg : String) :
    updateChartsTail cid kind s ≠ .error msg := by
  intro h
  have hok := updateChartsTail_isOk cid kind s
  rw [h] at hok
  simp [Except.isOk, Except.toBool] at hok

/-- C3: `update_metadata` with no updatable field rejects the call before
building any query; `update_file_hash` is claimed to do the same, but its
zero-field check is dead code — `updated_at` is unconditionally appended to
the SET list before the check, so the check can never fire (second
conjunct), and a confirmed call with every hash argument absent returns an
UPDATE query touching only `updated_at` instead of failing (third
conjunct). -/
theorem zero_field_update_validation (cid : String) :
    update_metadata { chart_id := cid } = .error "At least one field must be updated." ∧
    (∀ a : FileHashArgs, update_file_hash a ≠ .error "At least one file hash must be updated.") ∧
    update_file_hash { chart_id := cid, confirm_change := true } =
      .ok ("\n        UPDATE charts\n        SET updated_at = CURRENT_TIMESTAMP\n        WHERE id = $1;\n    ",
           [.str cid]) := by
  refine ⟨rfl, ?_, ?_⟩
  case refine_2 =>
    unfold update_file_hash updateChartsTail metaFieldS hashFieldOrNull
    simp [pyTruthyS]
    rfl
  intro a
  unfold update_file_hash
  by_cases hc : a.confirm_change
  · simp only [hc, Bool.not_true, Bool.false_eq_true, if_false]
    by_cases hj : pyTruthyS a.jacket_hash && !(pyTruthyS a.v1_hash && pyTruthyS a.v3_hash)
    · simp only [hj, if_true]
      intro h
      exact absurd (Except.error.inj h) (by decide)
    · simp only [hj, Bool.false_eq_true, if_false]
      exact updateChartsTail_ne_error _ _ _ _
  · simp only [Bool.not_eq_true] at hc
    simp only [hc, Bool.not_false, if_true]
    intro h
    exact absurd (Except.error.inj h) (by decide)

/-- C4: `delete_chart`, `delete_account` and `update_file_hash` all reject a
call whose confirmation flag is false with a validation error before any
query is constructed, and with the flag set to true that confirmation error
is never produced. -/
theorem confirm_flag_gate (cid sid : String) (so : Option String) (a : FileHashArgs) :
    delete_chart cid so false =
      .error "Deletion not confirmed. Ensure you are deleting the old files from S3 to ensure there is no hanging files." ∧
    (delete_chart cid so true).isOk = true ∧
    delete_account sid false =
      .error "Deletion not confirmed. Ensure you are deleting the old chart files from S3 to ensure there is no hanging files." ∧
    (delete_account sid true).isOk = true ∧
    update_file_hash { a with confirm_change := false } =
      .error "File hash change is not confirmed. Ensure you are deleting the old files from S3 to avoid dangling files." ∧
    update_file_hash { a with confirm_change := true } ≠
      .error "File hash change is not confirmed. Ensure you are deleting the old files from S3 to avoid dangling files." := by
  refine ⟨rfl, ?_, rfl, rfl, rfl, ?_⟩
  · unfold delete_chart
    cases h : pyTruthyS so <;> simp [h, Except.isOk, Except.toBool]
  · unfold update_file_hash
    by_cases hj : pyTruthyS a.jacket_hash && !(pyTruthyS a.v1_hash && pyTruthyS a.v3_hash)
    · simp only [hj, if_true]
      intro h
      exact absurd (Except.error.inj h) (by decide)
    · simp only [hj]
      simp only [Bool.false_eq_true, if_false]
      exact updateChartsTail_ne_error _ _ _ _

/-- C5: when `min_rating = m` is present the compiler emits the strict
predicate `c.rating > $k` with bound parameter `m - 1`, when
`max_rating = M` is present it emits `c.rating < $k` with bound parameter
`M + 1`, and over the integers these strict bounds hold exactly on the
inclusive range `m ≤ rating ≤ M`. -/
theorem rating_bounds_strict (a : FilterArgs) (m M : Int)
    (hmin : a.min_rating = some m) (hmax : a.max_rating = some M) :
    (∃ k, minRatingFrag (k + 1) ∈ (buildConds a).conds ∧
      (buildConds a).params.get? k = some (.int (m - 1))) ∧
    (∃ k, maxRatingFrag (k + 1) ∈ (buildConds a).conds ∧
      (buildConds a).params.get? k = some (.int (M + 1))) ∧
    (∀ r : Int, (m - 1 < r ∧ r < M + 1) ↔ (m ≤ r ∧ r ≤ M)) := by
  have hb4 : b4 a = addCond minRatingFrag (.int (m - 1)) (b3 a) := by
    unfold b4
    rw [hmin]
    rfl
  have hb5 : b5 a = addCond maxRatingFrag (.int (M + 1)) (b4 a) := by
    unfold b5
    rw [hmax]
    rfl
  refine ⟨⟨(b3 a).params.length, ?_, ?_⟩, ⟨(b4 a).params.length, ?_, ?_⟩, ?_⟩
  · exact (stExt_b4_build a).mem_conds (by rw [hb4]; simp [addCond])
  · exact (stExt_b4_build a).param_stable (by rw [hb4]; exact get?_append_singleton _ _)
  · exact (stExt_b5_build a).mem_conds (by rw [hb5]; simp [addCond])
  · exact (stExt_b5_build a).param_stable (by rw [hb5]; exact get?_append_singleton _ _)
  · intro r
    omega

/-- Witness for C5 at `min_rating = 5`, `max_rating = 9`. -/
theorem rating_bounds_strict_witness :
    (∃ k, minRatingFrag (k + 1) ∈ (buildConds argsRating).conds ∧
      (buildConds argsRating).params.get? k = some (.int 4)) ∧
    (∃ k, maxRatingFrag (k + 1) ∈ (buildConds argsRating).conds ∧
      (buildConds argsRating).params.get? k = some (.int 10)) ∧
    (∀ r : Int, (5 - 1 < r ∧ r < 9 + 1) ↔ (5 ≤ r ∧ r ≤ 9)) :=
  rating_bounds_strict argsRating 5 9 rfl rfl

/-- C6: when the meta filter is present, the compiler pushes exactly one
bound parameter — the lower-cased substring wrapped in wildcard markers —
and appends exactly one predicate fragment, `metaFragment`, whose four
case-insensitive LIKE sites joined by OR all reference that one freshly
pushed positional parameter. -/
theorem meta_filter_shared_param (a : FilterArgs) (s : String)
    (hm : a.meta_includes = some s) (hne : s ≠ "") :
    (buildConds a).params = (b17 a).params ++ [.str (wildcard s)] ∧
    (buildConds a).conds = (b17 a).conds ++ [metaFragment ((b17 a).params.length + 1)] := by
  unfold buildConds
  rw [hm]
  simp only [stepMeta, if_neg hne]
  exact ⟨rfl, rfl⟩

/-- Witness for C6 at `meta_includes = "Foo"`. -/
theorem meta_filter_shared_param_witness :
    (buildConds argsMeta).params = (b17 argsMeta).params ++ [.str (wildcard "Foo")] ∧
    (buildConds argsMeta).conds =
      (b17 argsMeta).conds ++ [metaFragment ((b17 argsMeta).params.length + 1)] :=
  meta_filter_shared_param argsMeta "Foo" rfl (by decide)

theorem head_append_of_some (s t : String) (c : Char) (h : s.data.head? = some c) :
    (s ++ t).data.head? = some c := by
  cases s with
  | mk l =>
    cases t with
    | mk m =>
      cases l with
      | nil => simp at h
      | cons x xs => exact h

theorem head_ne_a {f : String} {c : Char} (h : f.data.head? = some c) (hc : c ≠ 'a') :
    f.data.head? ≠ some 'a' := by
  rw [h]
  intro he
  exact hc (Option.some.inj he)

theorem statusFrag_head (n : ℕ) : (statusFrag n).data.head? = some 'c' :=
  head_append_of_some _ _ _ (head_append_of_some _ _ _ rfl)

theorem staffFrag_head (n : ℕ) : (staffFrag n).data.head? = some 'c' :=
  head_append_of_some _ _ _ (head_append_of_some _ _ _ rfl)

theorem minRatingFrag_head (n : ℕ) : (minRatingFrag n).data.head? = some 'c' :=
  head_append_of_some _ _ _ rfl

theorem maxRatingFrag_head (n : ℕ) : (maxRatingFrag n).data.head? = some 'c' :=
  head_append_of_some _ _ _ rfl

theorem tagsFrag_head (n : ℕ) : (tagsFrag n).data.head? = some 'c' :=
  head_append_of_some _ _ _ (head_append_of_some _ _ _ rfl)

theorem minLikesFrag_head (n : ℕ) : (minLikesFrag n).data.head? = some 'c' :=
  head_append_of_some _ _ _ rfl

theorem maxLikesFrag_head (n : ℕ) : (maxLikesFrag n).data.head? = some 'c' :=
  head_append_of_some _ _ _ rfl

theorem minCommentsFrag_head (n : ℕ) : (minCommentsFrag n).data.head? = some 'c' :=
  head_append_of_some _ _ _ rfl

theorem maxCommentsFrag_head (n : ℕ) : (maxCommentsFrag n).data.head? = some 'c' :=
  head_append_of_some _ _ _ rfl

theorem likedByFrag_head (n : ℕ) : (likedByFrag n).data.head? = some 'c' :=
  head_append_of_some _ _ _ rfl

theorem ownFrag_head (n : ℕ) : (ownFrag n).data.head? = some 'c' :=
  head_append_of_some _ _ _ rfl

theorem handleFrag_head (n : ℕ) : (handleFrag n).data.head? = some 'a' :=
  head_append_of_some _ _ _ rfl

theorem titleFrag_head (n : ℕ) : (titleFrag n).data.head? = some 'L' :=
  head_append_of_some _ _ _ rfl

theorem descFrag_head (n : ℕ) : (descFrag n).data.head? = some 'L' :=
  head_append_of_some _ _ _ rfl

theorem artistsFrag_head (n : ℕ) : (artistsFrag n).data.head? = some 'L' :=
  head_append_of_some _ _ _ rfl

theorem authorFullFrag_head (n : ℕ) : (authorFullFrag n).data.head? = some 'L' :=
  head_append_of_some _ _ _ rfl

theorem metaFragment_head (n : ℕ) : (metaFragment n).data.head? = some '(' := by
  unfold metaFragment
  repeat apply head_append_of_some
  rfl

theorem noHandle_addCond {st : BuildSt} (g : Nat → String) (v : PValue)
    (hst : NoHandleConds st) (hg : ∀ n, (g n).data.head? ≠ some 'a') :
    NoHandleConds (addCond g v st) := by
  intro f hf
  have hf' : f ∈ st.conds ++ [g (st.params.length + 1)] := hf
  rcases List.mem_append.mp hf' with hmem | hmem
  · exact hst f hmem
  · rw [List.mem_singleton.mp hmem]
    exact hg _

theorem noHandle_stepSonolusId (v : Option String) (st : BuildSt)
    (h : NoHandleConds st) : NoHandleConds (stepSonolusId v st) := by
  cases v with
  | none => exact h
  | some s =>
    by_cases he : s = ""
    · simp only [stepSonolusId, if_pos he]
      exact h
    · simp only [stepSonolusId, if_neg he]
      intro f hf
      exact h f hf

theorem noHandle_stepStatus (v : Option String) (st : BuildSt)
    (h : NoHandleConds st) : NoHandleConds (stepStatus v st) := by
  cases v with
  | none => exact h
  | some s =>
    by_cases he : s = ""
    · simp only [stepStatus, if_pos he]
      exact h
    · simp only [stepStatus, if_neg he]
      exact noHandle_addCond _ _ h (fun n => head_ne_a (statusFrag_head n) (by decide))

theorem noHandle_stepStaffPick (v : Option Bool) (st : BuildSt)
    (h : NoHandleConds st) : NoHandleConds (stepStaffPick v st) := by
  cases v with
  | none => exact h
  | some b => exact noHandle_addCond _ _ h (fun n => head_ne_a (staffFrag_head n) (by decide))

theorem noHandle_stepMinRating (v : Option Int) (st : BuildSt)
    (h : NoHandleConds st) : NoHandleConds (stepMinRating v st) := by
  cases v with
  | none => exact h
  | some m => exact noHandle_addCond _ _ h (fun n => head_ne_a (minRatingFrag_head n) (by decide))

theorem noHandle_stepMaxRating (v : Option Int) (st : BuildSt)
    (h : NoHandleConds st) : NoHandleConds (stepMaxRating v st) := by
  cases v with
  | none => exact h
  | some m => exact noHandle_addCond _ _ h (fun n => head_ne_a (maxRatingFrag_head n) (by decide))

theorem noHandle_stepTags (v : Option (List String)) (st : BuildSt)
    (h : NoHandleConds st) : NoHandleConds (stepTags v st) := by
  cases v with
  | none => exact h
  | some l =>
    by_cases he : l = []
    · simp only [stepTags, if_pos he]
      exact h
    · simp only [stepTags, if_neg he]
      exact noHandle_addCond _ _ h (fun n => head_ne_a (tagsFrag_head n) (by decide))

theorem noHandle_stepMinLikes (v : Option Int) (st : BuildSt)
    (h : NoHandleConds st) : NoHandleConds (stepMinLikes v st) := by
  cases v with
  | none => exact h
  | some m => exact noHandle_addCond _ _ h (fun n => head_ne_a (minLikesFrag_head n) (by decide))

theorem noHandle_stepMaxLikes (v : Option Int) (st : BuildSt)
    (h : NoHandleConds st) : NoHandleConds (stepMaxLikes v st) := by
  cases v with
  | none => exact h
  | some m => exact noHandle_addCond _ _ h (fun n => head_ne_a (maxLikesFrag_head n) (by decide))

theorem noHandle_stepMinComments (v : Option Int) (st : BuildSt)
    (h : NoHandleConds st) : NoHandleConds (stepMinComments v st) := by
  cases v with
  | none => exact h
  | some m => exact noHandle_addCond _ _ h (fun n => head_ne_a (minCommentsFrag_head n) (by decide))

theorem noHandle_stepMaxComments (v : Option Int) (st : BuildSt)
    (h : NoHandleConds st) : NoHandleConds (stepMaxComments v st) := by
  cases v with
  | none => exact h
  | some m => exact noHandle_addCond _ _ h (fun n => head_ne_a (maxCommentsFrag_head n) (by decide))

theorem noHandle_stepLikedBy (v : Option String) (st : BuildSt)
    (h : NoHandleConds st) : NoHandleConds (stepLikedBy v st) := by
  cases v with
  | none => exact h
  | some s =>
    by_cases he : s = ""
    · simp only [stepLikedBy, if_pos he]
      exact h
    · simp only [stepLikedBy, if_neg he]
      exact noHandle_addCond _ _ h (fun n => head_ne_a (likedByFrag_head n) (by decide))

theorem noHandle_stepCommentedBy (v : Option String) (st : BuildSt)
    (h : NoHandleConds st) : NoHandleConds (stepCommentedBy v st) := by
  cases v with
  | none => exact h
  | some s =>
    by_cases he : s = ""
    · simp only [stepCommentedBy, if_pos he]
      exact h
    · simp only [stepCommentedBy, if_neg he]
      intro f hf
      exact h f hf

theorem noHandle_stepTitleIncludes (v : Option String) (st : BuildSt)
    (h : NoHandleConds st) : NoHandleConds (stepTitleIncludes v st) := by
  cases v with
  | none => exact h
  | some s =>
    by_cases he : s = ""
    · simp only [stepTitleIncludes, if_pos he]
      exact h
    · simp only [stepTitleIncludes, if_neg he]
      exact noHandle_addCond _ _ h (fun n => head_ne_a (titleFrag_head n) (by decide))

theorem noHandle_stepDescriptionIncludes (v : Option String) (st : BuildSt)
    (h : NoHandleConds st) : NoHandleConds (stepDescriptionIncludes v st) := by
  cases v with
  | none => exact h
  | some s =>
    by_cases he : s = ""
    · simp only [stepDescriptionIncludes, if_pos he]
      exact h
    · simp only [stepDescriptionIncludes, if_neg he]
      exact noHandle_addCond _ _ h (fun n => head_ne_a (descFrag_head n) (by decide))

theorem noHandle_stepArtistsIncludes (v : Option String) (st : BuildSt)
    (h : NoHandleConds st) : NoHandleConds (stepArtistsIncludes v st) := by
  cases v with
  | none => exact h
  | some s =>
    by_cases he : s = ""
    · simp only [stepArtistsIncludes, if_pos he]
      exact h
    · simp only [stepArtistsIncludes, if_neg he]
      exact noHandle_addCond _ _ h (fun n => head_ne_a (artistsFrag_head n) (by decide))

theorem noHandle_stepAuthorIncludes (v : Option String) (st : BuildSt)
    (h : NoHandleConds st) : NoHandleConds (stepAuthorIncludes v st) := by
  cases v with
  | none => exact h
  | some s =>
    by_cases he : s = ""
    · simp only [stepAuthorIncludes, if_pos he]
      exact h
    · simp only [stepAuthorIncludes, if_neg he]
      exact noHandle_addCond _ _ h (fun n => head_ne_a (authorFullFrag_head n) (by decide))

theorem noHandle_stepMeta (v : Option String) (st : BuildSt)
    (h : NoHandleConds st) : NoHandleConds (stepMeta v st) := by
  cases v with
  | none => exact h
  | some s =>
    by_cases he : s = ""
    · simp only [stepMeta, if_pos he]
      exact h
    · simp only [stepMeta, if_neg he]
      exact noHandle_addCond _ _ h (fun n => head_ne_a (metaFragment_head n) (by decide))

/-- C7: when the ownership filter is present (truthy), the compiled
predicate list contains the ownership predicate `c.author = $k` bound to the
owner id, and contains no handle predicate `a.sonolus_handle = $n` for any
placeholder `n` — the `elif` makes the handle filter reachable only when the
ownership filter is absent. -/
theorem ownership_precedes_handle (a : FilterArgs) (s : String)
    (hs : a.owned_by = some s) (hne : s ≠ "") :
    (∃ k, ownFrag (k + 1) ∈ (buildConds a).conds ∧
      (buildConds a).params.get? k = some (.str s)) ∧
    (∀ n, handleFrag n ∉ (buildConds a).conds) := by
  have hb13 : b13 a = addCond ownFrag (.str s) (b12 a) := by
    unfold b13
    rw [hs]
    simp only [stepOwnedHandle, if_neg hne]
  constructor
  · refine ⟨(b12 a).params.length, ?_, ?_⟩
    · exact (stExt_b13_build a).mem_conds (by rw [hb13]; simp [addCond])
    · exact (stExt_b13_build a).param_stable (by rw [hb13]; exact get?_append_singleton _ _)
  · have h0 : NoHandleConds (st0 a) := fun f hf => absurd hf (List.not_mem_nil f)
    have h12 : NoHandleConds (b12 a) :=
      noHandle_stepCommentedBy _ _ (noHandle_stepLikedBy _ _ (noHandle_stepMaxComments _ _
        (noHandle_stepMinComments _ _ (noHandle_stepMaxLikes _ _ (noHandle_stepMinLikes _ _
          (noHandle_stepTags _ _ (noHandle_stepMaxRating _ _ (noHandle_stepMinRating _ _
            (noHandle_stepStaffPick _ _ (noHandle_stepStatus _ _
              (noHandle_stepSonolusId _ _ h0)))))))))))
    have h13 : NoHandleConds (b13 a) := by
      rw [hb13]
      exact noHandle_addCond _ _ h12 (fun n => head_ne_a (ownFrag_head n) (by decide))
    have hfin : NoHandleConds (buildConds a) :=
      noHandle_stepMeta _ _ (noHandle_stepAuthorIncludes _ _ (noHandle_stepArtistsIncludes _ _
        (noHandle_stepDescriptionIncludes _ _ (noHandle_stepTitleIncludes _ _ h13))))
    intro n hmem
    exact hfin _ hmem (handleFrag_head n)

/-- Witness for C7: ownership filter `"alice"` and handle filter `7` both
present. -/
theorem ownership_precedes_handle_witness :
    (∃ k, ownFrag (k + 1) ∈ (buildConds argsOwned).conds ∧
      (buildConds argsOwned).params.get? k = some (.str "alice")) ∧
    (∀ n, handleFrag n ∉ (buildConds argsOwned).conds) :=
  ownership_precedes_handle argsOwned "alice" rfl (by decide)

/-- C8 counterexample: with all three slots active at time 50 and expiries
`[100, 100, 300]`, the SQL `ORDER BY expires ASC LIMIT 1` admits slot `"2"`
just as well as slot `"1"` — no secondary sort key exists, so the claimed
deterministic lowest-index tie-break is not guaranteed by the code. -/
theorem session_tie_not_lowest_index :
    selectsSlot sessionsTie 50 "2" ∧
    ¬ (∀ k, selectsSlot sessionsTie 50 k → k = "1") := by
  have h2 : selectsSlot sessionsTie 50 "2" := by
    refine selectsSlot.evict "2" { session_key := "kb", expires := 100 }
      (by decide) (by decide) (by decide) (by decide) ?_
    intro k' sl' h
    unfold slotGet at h
    split_ifs at h with h1 h2 h3
    · cases Option.some.inj h
      decide
    · cases Option.some.inj h
      decide
    · cases Option.some.inj h
      decide
  refine ⟨h2, fun hall => absurd (hall "2" h2) (by decide)⟩

/-- C8 (amended): the allocator picks slot 1, 2 or 3 when it is the first
empty-or-expired slot in scan order; when all three slots are active it
picks a slot whose expiry is minimal (the code fixes no tie-break among
equal minimal expiries); the selected slot is overwritten with the new token
and expiry, and reading the written slot back yields exactly that token and
expiry. -/
theorem session_slot_selection (s : Sessions3) (now : Int) (k : String)
    (h : selectsSlot s now k) (tok : String) (e : Int) :
    (expiredOrEmpty s.s1 now = true → k = "1") ∧
    (expiredOrEmpty s.s1 now = false → expiredOrEmpty s.s2 now = true → k = "2") ∧
    (expiredOrEmpty s.s1 now = false → expiredOrEmpty s.s2 now = false →
      expiredOrEmpty s.s3 now = true → k = "3") ∧
    (expiredOrEmpty s.s1 now = false → expiredOrEmpty s.s2 now = false →
      expiredOrEmpty s.s3 now = false →
      ∃ sl, slotGet s k = some sl ∧
        ∀ k' sl', slotGet s k' = some sl' → sl.expires ≤ sl'.expires) ∧
    sessionResult (setSlot s k { session_key := tok, expires := e }) k = some (tok, e) := by
  cases h with
  | first h1 =>
    refine ⟨fun _ => rfl, ?_, ?_, ?_, ?_⟩
    · intro hf _
      rw [h1] at hf
      cases hf
    · intro hf _ _
      rw [h1] at hf
      cases hf
    · intro hf _ _
      rw [h1] at hf
      cases hf
    · simp [setSlot, slotGet, sessionResult]
  | second h1 h2 =>
    refine ⟨?_, fun _ _ => rfl, ?_, ?_, ?_⟩
    · intro ht
      rw [h1] at ht
      cases ht
    · intro _ hf _
      rw [h2] at hf
      cases hf
    · intro _ hf _
      rw [h2] at hf
      cases hf
    · simp [setSlot, slotGet, sessionResult]
  | third h1 h2 h3 =>
    refine ⟨?_, ?_, fun _ _ _ => rfl, ?_, ?_⟩
    · intro ht
      rw [h1] at ht
      cases ht
    · intro _ ht
      rw [h2] at ht
      cases ht
    · intro _ _ hf
      rw [h3] at hf
      cases hf
    · simp [setSlot, slotGet, sessionResult]
  | evict k sl h1 h2 h3 hget hmin =>
    refine ⟨?_, ?_, ?_, fun _ _ _ => ⟨sl, hget, hmin⟩, ?_⟩
    · intro ht
      rw [h1] at ht
      cases ht
    · intro _ ht
      rw [h2] at ht
      cases ht
    · intro _ _ ht
      rw [h3] at ht
      cases ht
    · unfold slotGet at hget
      split_ifs at hget with hk1 hk2 hk3
      · subst hk1
        simp [setSlot, slotGet, sessionResult]
      · subst hk2
        simp [setSlot, slotGet, sessionResult]
      · subst hk3
        simp [setSlot, slotGet, sessionResult]

/-- Witness for C8 (amended), at the spec's scan example: slots
`[active, expired, empty]` at time 50 select slot `"2"`, and the written
slot reads back the new token and expiry. -/
theorem session_slot_selection_witness :
    (expiredOrEmpty sessionsScan.s1 50 = true → "2" = "1") ∧
    (expiredOrEmpty sessionsScan.s1 50 = false →
      expiredOrEmpty sessionsScan.s2 50 = true → "2" = "2") ∧
    (expiredOrEmpty sessionsScan.s1 50 = false →
      expiredOrEmpty sessionsScan.s2 50 = false →
      expiredOrEmpty sessionsScan.s3 50 = true → "2" = "3") ∧
    (expiredOrEmpty sessionsScan.s1 50 = false →
      expiredOrEmpty sessionsScan.s2 50 = false →
      expiredOrEmpty sessionsScan.s3 50 = false →
      ∃ sl, slotGet sessionsScan "2" = some sl ∧
        ∀ k' sl', slotGet sessionsScan k' = some sl' → sl.expires ≤ sl'.expires) ∧
    sessionResult (setSlot sessionsScan "2" { session_key := "tok", expires := 999 }) "2" =
      some ("tok", 999) :=
  session_slot_selection sessionsScan 50 "2"
    (selectsSlot.second (by decide) (by decide)) "tok" 999

theorem stepStatus_falsy : stepStatus (some "") = stepStatus none := by
  funext st
  simp [stepStatus]

theorem stepTags_falsy : stepTags (some []) = stepTags none := by
  funext st
  simp [stepTags]

theorem stepTitleIncludes_falsy : stepTitleIncludes (some "") = stepTitleIncludes none := by
  funext st
  simp [stepTitleIncludes]

theorem stepMeta_falsy : stepMeta (some "") = stepMeta none := by
  funext st
  simp [stepMeta]

theorem stepOwnedHandle_falsy (ob : Option String) :
    stepOwnedHandle ob (some 0) = stepOwnedHandle ob none := by
  funext st
  cases ob with
  | none => simp [stepOwnedHandle, stepHandleOnly]
  | some s =>
    by_cases h : s = ""
    · simp [stepOwnedHandle, stepHandleOnly, h]
    · simp [stepOwnedHandle, h]

theorem get_chart_list_congr (x y : FilterArgs) (hbc : buildConds x = buildConds y)
    (hsb : x.sort_by = y.sort_by) (hso : x.sort_order = y.sort_order)
    (hip : x.items_per_page = y.items_per_page) (hp : x.page = y.page) :
    get_chart_list x = get_chart_list y := by
  simp only [get_chart_list, innerFinal, hbc, hsb, hso, hip, hp]

theorem buildCondsAux_status_falsy (sid lb : Option String) (sp : Option Bool)
    (mr xr : Option Int) (tg : Option (List String)) (ml xl mc xc : Option Int)
    (cb ob : Option String) (hi : Option Int) (ti di ar au mi : Option String) :
    buildCondsAux sid lb (some "") sp mr xr tg ml xl mc xc cb ob hi ti di ar au mi =
    buildCondsAux sid lb none sp mr xr tg ml xl mc xc cb ob hi ti di ar au mi := by
  unfold buildCondsAux
  rw [stepStatus_falsy]

theorem buildCondsAux_handle_falsy (sid lb status : Option String) (sp : Option Bool)
    (mr xr : Option Int) (tg : Option (List String)) (ml xl mc xc : Option Int)
    (cb ob : Option String) (ti di ar au mi : Option String) :
    buildCondsAux sid lb status sp mr xr tg ml xl mc xc cb ob (some 0) ti di ar au mi =
    buildCondsAux sid lb status sp mr xr tg ml xl mc xc cb ob none ti di ar au mi := by
  unfold buildCondsAux
  rw [stepOwnedHandle_falsy]

theorem buildCondsAux_tags_falsy (sid lb status : Option String) (sp : Option Bool)
    (mr xr : Option Int) (ml xl mc xc : Option Int)
    (cb ob : Option String) (hi : Option Int) (ti di ar au mi : Option String) :
    buildCondsAux sid lb status sp mr xr (some []) ml xl mc xc cb ob hi ti di ar au mi =
    buildCondsAux sid lb status sp mr xr none ml xl mc xc cb ob hi ti di ar au mi := by
  unfold buildCondsAux
  rw [stepTags_falsy]

theorem buildCondsAux_title_falsy (sid lb status : Option String) (sp : Option Bool)
    (mr xr : Option Int) (tg : Option (List String)) (ml xl mc xc : Option Int)
    (cb ob : Option String) (hi : Option Int) (di ar au mi : Option String) :
    buildCondsAux sid lb status sp mr xr tg ml xl mc xc cb ob hi (some "") di ar au mi =
    buildCondsAux sid lb status sp mr xr tg ml xl mc xc cb ob hi none di ar au mi := by
  unfold buildCondsAux
  rw [stepTitleIncludes_falsy]

theorem buildCondsAux_meta_falsy (sid lb status : Option String) (sp : Option Bool)
    (mr xr : Option Int) (tg : Option (List String)) (ml xl mc xc : Option Int)
    (cb ob : Option String) (hi : Option Int) (ti di ar au : Option String) :
    buildCondsAux sid lb status sp mr xr tg ml xl mc xc cb ob hi ti di ar au (some "") =
    buildCondsAux sid lb status sp mr xr tg ml xl mc xc cb ob hi ti di ar au none := by
  unfold buildCondsAux
  rw [stepMeta_falsy]

/-- C10: at the public interface of `get_chart_list`, a falsy filter value
is treated as an absent filter: an empty status string, the handle `0`, an
empty tag list and an empty filter substring each compile exactly as if the
argument had been `None`, and a `None` argument emits no predicate at all
(the compilation step is the identity). -/
theorem falsy_filters_treated_as_absent (a : FilterArgs) :
    get_chart_list { a with status := some "" } = get_chart_list { a with status := none } ∧
    get_chart_list { a with sonolus_handle_is := some 0 } =
      get_chart_list { a with sonolus_handle_is := none } ∧
    get_chart_list { a with tags := some [] } = get_chart_list { a with tags := none } ∧
    get_chart_list { a with title_includes := some "" } =
      get_chart_list { a with title_includes := none } ∧
    get_chart_list { a with meta_includes := some "" } =
      get_chart_list { a with meta_includes := none } ∧
    (∀ st, stepStatus none st = st) ∧ (∀ st, stepTags none st = st) ∧
    (∀ st, stepHandleOnly none st = st) ∧ (∀ st, stepMeta none st = st) := by
  refine ⟨?_, ?_, ?_, ?_, ?_, fun st => rfl, fun st => rfl, fun st => rfl, fun st => rfl⟩
  · exact get_chart_list_congr _ _
      (buildCondsAux_status_falsy a.sonolus_id a.liked_by a.staff_pick a.min_rating
        a.max_rating a.tags a.min_likes a.max_likes a.min_comments a.max_comments
        a.commented_by a.owned_by a.sonolus_handle_is a.title_includes
        a.description_includes a.artists_includes a.author_includes a.meta_includes)
      rfl rfl rfl rfl
  · exact get_chart_list_congr _ _
      (buildCondsAux_handle_falsy a.sonolus_id a.liked_by a.status a.staff_pick a.min_rating
        a.max_rating a.tags a.min_likes a.max_likes a.min_comments a.max_comments
        a.commented_by a.owned_by a.title_includes
        a.description_includes a.artists_includes a.author_includes a.meta_includes)
      rfl rfl rfl rfl
  · exact get_chart_list_congr _ _
      (buildCondsAux_tags_falsy a.sonolus_id a.liked_by a.status a.staff_pick a.min_rating
        a.max_rating a.min_likes a.max_likes a.min_comments a.max_comments
        a.commented_by a.owned_by a.sonolus_handle_is a.title_includes
        a.description_includes a.artists_includes a.author_includes a.meta_includes)
      rfl rfl rfl rfl
  · exact get_chart_list_congr _ _
      (buildCondsAux_title_falsy a.sonolus_id a.liked_by a.status a.staff_pick a.min_rating
        a.max_rating a.tags a.min_likes a.max_likes a.min_comments a.max_comments
        a.commented_by a.owned_by a.sonolus_handle_is
        a.description_includes a.artists_includes a.author_includes a.meta_includes)
      rfl rfl rfl rfl
  · exact get_chart_list_congr _ _
      (buildCondsAux_meta_falsy a.sonolus_id a.liked_by a.status a.staff_pick a.min_rating
        a.max_rating a.tags a.min_likes a.max_likes a.min_comments a.max_comments
        a.commented_by a.owned_by a.sonolus_handle_is a.title_includes
        a.description_includes a.artists_includes a.author_includes)
      rfl rfl rfl rfl

end ChartBackend
